import Mathlib

/-!
Shallow embedding of `src/circuit_breaker.py` (class `CircuitBreaker`).

Modelling decisions:
* Timestamps (`time.time()`) are modelled as integers; the code only ever
  subtracts two timestamps and compares the difference with `reset_timeout`.
* Python exceptions are modelled by the inductive type `Exc`; an operation
  passed to `call` is represented by its outcome, a value of
  `Except Exc A` (`Except.ok` for a normal return, `Except.error` for a
  raised exception).
* `self.state` is a Python string in the source ("CLOSED" / "OPEN" /
  "HALF-OPEN"); we keep it as a `String`.
* `call` is split into the three phases of the source method: the section
  guarded by `with self._lock` handling the OPEN state (lines 40-48), the
  HALF-OPEN admission check and increment (lines 50-54, outside the lock),
  and the invocation of the wrapped function with its success/failure
  bookkeeping (lines 56-65).
* The singleton machinery of `__new__`/`__init__` (lines 14-37) is modelled
  by `newCircuitBreaker`, which receives the current value of
  `CircuitBreaker._instance` (`none` when no instance exists yet) and
  returns the instance the Python expression `CircuitBreaker(...)` yields.
-/

namespace CircuitBreakerModel

/-- Python exception values, by type and message. -/
inductive Exc where
  | runtimeError (msg : String)
  | valueError (msg : String)
  | typeError (msg : String)
deriving DecidableEq, Repr

/-- The mutable fields of a `CircuitBreaker` instance, as set by
`__init__` (lines 28-35 of the source). -/
structure Breaker where
  max_failures : Int
  reset_timeout : Int
  half_open_max_requests : Int
  failure_count : Int
  last_failure_time : Option Int
  state : String
  half_open_request_count : Int
deriving DecidableEq, Repr

/-- Message of the `RuntimeError` raised when the circuit is open
(line 48). -/
def openBlockedMsg : String := "Circuit is open. Service call blocked."

/-- Message of the `RuntimeError` raised when the half-open trial limit is
reached (line 53). -/
def halfOpenBlockedMsg : String := "Circuit is HALF-OPEN. Too many test requests."

/-- The error a blocked call raises while the circuit is open. -/
def openBlockedError : Exc := Exc.runtimeError openBlockedMsg

/-- The error a blocked call raises while half-open and saturated. -/
def halfOpenBlockedError : Exc := Exc.runtimeError halfOpenBlockedMsg

/-- The `TypeError` Python raises when `time.time() - None` is evaluated
(line 42 with `last_failure_time = None`). -/
def noneSubError : Exc := Exc.typeError "unsupported operand for NoneType"

/-- Field initialisation performed by `__init__` on a fresh instance
(lines 28-35). -/
def initBreaker (mf rt ho : Int) : Breaker :=
  { max_failures := mf
    reset_timeout := rt
    half_open_max_requests := ho
    failure_count := 0
    last_failure_time := none
    state := "CLOSED"
    half_open_request_count := 0 }

/-- The value of the Python expression `CircuitBreaker(mf, rt, ho)`:
`__new__` returns the existing `_instance` when there is one, and
`__init__` returns immediately on an already-initialised instance
(lines 14-26), so the arguments are discarded; otherwise a fresh
instance is initialised. -/
def newCircuitBreaker (inst : Option Breaker) (mf rt ho : Int) : Breaker :=
  match inst with
  | some b => b
  | none => initBreaker mf rt ho

/-- `record_failure` (lines 67-76): increment the failure counter, move to
OPEN from HALF-OPEN unconditionally or from elsewhere when the counter
reaches `max_failures`, and stamp `last_failure_time`. -/
def record_failure (b : Breaker) (now : Int) : Breaker :=
  let b1 : Breaker := { b with failure_count := b.failure_count + 1 }
  let b2 : Breaker :=
    if b1.state = "HALF-OPEN" then { b1 with state := "OPEN" }
    else if b1.failure_count ≥ b1.max_failures then { b1 with state := "OPEN" }
    else b1
  { b2 with last_failure_time := some now }

/-- `reset` (lines 78-82). -/
def reset (b : Breaker) : Breaker :=
  { b with failure_count := 0, state := "CLOSED", half_open_request_count := 0 }

/-- Outcome of one invocation of `call`: the value returned or exception
raised, the instance state afterwards, and whether the wrapped function
was invoked. -/
structure CallResult (A : Type) where
  result : Except Exc A
  breaker : Breaker
  invoked : Bool
deriving Repr

/-- The section of `call` guarded by `with self._lock` (lines 40-48):
when OPEN, either transition to HALF-OPEN (resetting the trial counter)
or raise. Subtracting from an absent `last_failure_time` is the Python
`TypeError` of `time.time() - None`. -/
def openCheck (b : Breaker) (now : Int) : Except Exc Breaker :=
  if b.state = "OPEN" then
    match b.last_failure_time with
    | none => Except.error noneSubError
    | some t =>
      if now - t ≥ b.reset_timeout then
        Except.ok { b with state := "HALF-OPEN", half_open_request_count := 0 }
      else
        Except.error openBlockedError
  else
    Except.ok b

/-- The HALF-OPEN admission check and increment (lines 50-54). In the
source these statements are not under the lock; in this sequential model
they simply run next. -/
def halfOpenAdmit (b : Breaker) : Except Exc Breaker :=
  if b.state = "HALF-OPEN" then
    if b.half_open_request_count ≥ b.half_open_max_requests then
      Except.error halfOpenBlockedError
    else
      Except.ok { b with half_open_request_count := b.half_open_request_count + 1 }
  else
    Except.ok b

/-- Invocation of the wrapped function and its bookkeeping (lines 56-65):
on success, `reset` and return the result; on failure, `record_failure`
and re-raise the original exception (`raise` with no argument). -/
def runOp {A : Type} (b : Breaker) (now : Int) (op : Except Exc A) : CallResult A :=
  match op with
  | Except.ok v => ⟨Except.ok v, reset b, true⟩
  | Except.error e => ⟨Except.error e, record_failure b now, true⟩

/-- `call` (lines 39-65), as the composition of the three phases. A raise
in an earlier phase leaves the instance as that phase left it and the
wrapped function uninvoked. -/
def call {A : Type} (b : Breaker) (now : Int) (op : Except Exc A) : CallResult A :=
  match openCheck b now with
  | Except.error e => ⟨Except.error e, b, false⟩
  | Except.ok b1 =>
    match halfOpenAdmit b1 with
    | Except.error e => ⟨Except.error e, b1, false⟩
    | Except.ok b2 => runOp b2 now op

/-- Instance states reachable by sequences of `call` invocations from a
freshly constructed breaker with configuration `mf`, `rt`, `ho`. Each
step supplies the wall-clock time of the call and the outcome of the
wrapped operation. -/
inductive Reachable (mf rt ho : Int) : Breaker → Prop where
  | init : Reachable mf rt ho (initBreaker mf rt ho)
  | step {A : Type} (b : Breaker) (now : Int) (op : Except Exc A) :
      Reachable mf rt ho b → Reachable mf rt ho (call b now op).breaker

/-! ### Basic field lemmas -/

theorem record_failure_fields (b : Breaker) (now : Int) :
    (record_failure b now).max_failures = b.max_failures ∧
    (record_failure b now).reset_timeout = b.reset_timeout ∧
    (record_failure b now).half_open_max_requests = b.half_open_max_requests ∧
    (record_failure b now).failure_count = b.failure_count + 1 ∧
    (record_failure b now).last_failure_time = some now ∧
    (record_failure b now).half_open_request_count = b.half_open_request_count := by
  simp only [record_failure]
  split_ifs <;> simp

theorem reset_fields (b : Breaker) :
    (reset b).max_failures = b.max_failures ∧
    (reset b).reset_timeout = b.reset_timeout ∧
    (reset b).half_open_max_requests = b.half_open_max_requests ∧
    (reset b).failure_count = 0 ∧
    (reset b).last_failure_time = b.last_failure_time ∧
    (reset b).state = "CLOSED" ∧
    (reset b).half_open_request_count = 0 := by
  simp [reset]

theorem openCheck_ok_fields (b : Breaker) (now : Int) (b1 : Breaker)
    (h : openCheck b now = Except.ok b1) :
    b1.max_failures = b.max_failures ∧
    b1.reset_timeout = b.reset_timeout ∧
    b1.half_open_max_requests = b.half_open_max_requests ∧
    b1.failure_count = b.failure_count ∧
    b1.last_failure_time = b.last_failure_time := by
  unfold openCheck at h
  by_cases hs : b.state = "OPEN"
  · rw [if_pos hs] at h
    cases hlt : b.last_failure_time with
    | none => rw [hlt] at h; cases h
    | some t =>
      rw [hlt] at h
      dsimp only at h
      by_cases hge : now - t ≥ b.reset_timeout
      · rw [if_pos hge] at h
        cases h
        simp [hlt]
      · rw [if_neg hge] at h; cases h
  · rw [if_neg hs] at h
    cases h
    simp

theorem halfOpenAdmit_ok_fields (b : Breaker) (b1 : Breaker)
    (h : halfOpenAdmit b = Except.ok b1) :
    b1.max_failures = b.max_failures ∧
    b1.reset_timeout = b.reset_timeout ∧
    b1.half_open_max_requests = b.half_open_max_requests ∧
    b1.failure_count = b.failure_count ∧
    b1.last_failure_time = b.last_failure_time ∧
    b1.state = b.state := by
  unfold halfOpenAdmit at h
  by_cases hs : b.state = "HALF-OPEN"
  · rw [if_pos hs] at h
    by_cases hge : b.half_open_request_count ≥ b.half_open_max_requests
    · rw [if_pos hge] at h; cases h
    · rw [if_neg hge] at h
      cases h
      simp
  · rw [if_neg hs] at h
    cases h
    simp

/-! ### Concrete instances used by witnesses -/

/-- A breaker in the HALF-OPEN state with one admitted trial request. -/
def bHO : Breaker :=
  { max_failures := 3
    reset_timeout := 3
    half_open_max_requests := 2
    failure_count := 0
    last_failure_time := some 4
    state := "HALF-OPEN"
    half_open_request_count := 1 }

/-- A breaker in the OPEN state whose last failure was at time 4. -/
def bOpen : Breaker :=
  { max_failures := 3
    reset_timeout := 3
    half_open_max_requests := 2
    failure_count := 3
    last_failure_time := some 4
    state := "OPEN"
    half_open_request_count := 0 }

/-! ### Claim theorems: construction -/

/-- C1: the constructor performs no validation whatsoever. Constructing
with all three bounds non-positive raises nothing and yields a fully
initialised instance carrying the non-positive configuration, contrary to
the specified `InvalidConfigError`. -/
theorem C1_construction_accepts_nonpositive :
    newCircuitBreaker none 0 0 0 =
      { max_failures := 0
        reset_timeout := 0
        half_open_max_requests := 0
        failure_count := 0
        last_failure_time := none
        state := "CLOSED"
        half_open_request_count := 0 } := rfl

/-- C9: constructing a second `CircuitBreaker` with any arguments returns
the already-existing instance completely unchanged; the new configuration
arguments are discarded. -/
theorem C9_reconstruction_returns_existing (b : Breaker) (mf rt ho : Int) :
    newCircuitBreaker (some b) mf rt ho = b := rfl

/-- Witness for C9: reconstructing with a different configuration returns
the existing instance unchanged. -/
theorem C9_reconstruction_returns_existing_witness :
    newCircuitBreaker (some (initBreaker 3 3 2)) 7 9 5 = initBreaker 3 3 2 :=
  C9_reconstruction_returns_existing (initBreaker 3 3 2) 7 9 5

/-! ### Claim theorems: record_failure -/

/-- C3: every recorded failure increments `failure_count` by one and
stamps `last_failure_time` with the current time; from HALF-OPEN the
state becomes OPEN regardless of the counter, and from CLOSED the state
becomes OPEN exactly when the incremented counter reaches
`max_failures`, remaining CLOSED below the threshold. -/
theorem C3_record_failure_correct (b : Breaker) (now : Int) :
    (record_failure b now).failure_count = b.failure_count + 1 ∧
    (record_failure b now).last_failure_time = some now ∧
    (b.state = "HALF-OPEN" → (record_failure b now).state = "OPEN") ∧
    (b.state = "CLOSED" →
      (((record_failure b now).state = "OPEN") ↔ b.failure_count + 1 ≥ b.max_failures) ∧
      (b.failure_count + 1 < b.max_failures → (record_failure b now).state = "CLOSED")) := by
  refine ⟨(record_failure_fields b now).2.2.2.1, (record_failure_fields b now).2.2.2.2.1, ?_, ?_⟩
  · intro hs
    unfold record_failure
    simp [hs]
  · intro hs
    unfold record_failure
    simp only [hs]
    constructor
    · constructor
      · intro hopen
        by_contra hlt
        simp [hlt] at hopen
      · intro hge
        simp [hge]
    · intro hlt
      simp [not_le.mpr hlt, hs]

/-- Witness for C3 at a concrete half-open instance. -/
theorem C3_record_failure_witness :
    (record_failure bHO 9).failure_count = bHO.failure_count + 1 ∧
    (record_failure bHO 9).last_failure_time = some 9 ∧
    (record_failure bHO 9).state = "OPEN" :=
  ⟨(C3_record_failure_correct bHO 9).1, (C3_record_failure_correct bHO 9).2.1,
    (C3_record_failure_correct bHO 9).2.2.1 rfl⟩

/-! ### Case-analysis lemmas for call -/

theorem openCheck_ok_cases (b : Breaker) (now : Int) (b1 : Breaker)
    (h : openCheck b now = Except.ok b1) :
    b1 = b ∨
    (b.state = "OPEN" ∧ b1 = { b with state := "HALF-OPEN", half_open_request_count := 0 }) := by
  unfold openCheck at h
  by_cases hs : b.state = "OPEN"
  · rw [if_pos hs] at h
    cases hlt : b.last_failure_time with
    | none => rw [hlt] at h; cases h
    | some t =>
      rw [hlt] at h
      dsimp only at h
      by_cases hge : now - t ≥ b.reset_timeout
      · rw [if_pos hge] at h
        cases h
        exact Or.inr ⟨hs, rfl⟩
      · rw [if_neg hge] at h; cases h
  · rw [if_neg hs] at h
    cases h
    exact Or.inl rfl

theorem halfOpenAdmit_ok_cases (b : Breaker) (b1 : Breaker)
    (h : halfOpenAdmit b = Except.ok b1) :
    (b.state ≠ "HALF-OPEN" ∧ b1 = b) ∨
    (b.state = "HALF-OPEN" ∧ b.half_open_request_count < b.half_open_max_requests ∧
      b1 = { b with half_open_request_count := b.half_open_request_count + 1 }) := by
  unfold halfOpenAdmit at h
  by_cases hs : b.state = "HALF-OPEN"
  · rw [if_pos hs] at h
    by_cases hge : b.half_open_request_count ≥ b.half_open_max_requests
    · rw [if_pos hge] at h; cases h
    · rw [if_neg hge] at h
      cases h
      exact Or.inr ⟨hs, lt_of_not_ge hge, rfl⟩
  · rw [if_neg hs] at h
    cases h
    exact Or.inl ⟨hs, rfl⟩

theorem runOp_state_not_halfOpen {A : Type} (b : Breaker) (now : Int) (op : Except Exc A) :
    (runOp b now op).breaker.state ≠ "HALF-OPEN" := by
  cases op with
  | ok v => simp [runOp, reset]
  | error e =>
    show (record_failure b now).state ≠ "HALF-OPEN"
    simp only [record_failure]
    split_ifs <;> simp_all

theorem call_invoked_spec {A : Type} (b : Breaker) (now : Int) (op : Except Exc A)
    (h : (call b now op).invoked = true) :
    ∃ b2 : Breaker, call b now op = runOp b2 now op ∧
      b2.failure_count = b.failure_count := by
  unfold call at h ⊢
  cases hoc : openCheck b now with
  | error e => rw [hoc] at h; cases h
  | ok b1 =>
    rw [hoc] at h
    dsimp only at h ⊢
    cases had : halfOpenAdmit b1 with
    | error e => rw [had] at h; cases h
    | ok b2 =>
      refine ⟨b2, rfl, ?_⟩
      rw [(halfOpenAdmit_ok_fields b1 b2 had).2.2.2.1,
        (openCheck_ok_fields b now b1 hoc).2.2.2.1]

theorem call_config {A : Type} (b : Breaker) (now : Int) (op : Except Exc A) :
    (call b now op).breaker.max_failures = b.max_failures ∧
    (call b now op).breaker.reset_timeout = b.reset_timeout ∧
    (call b now op).breaker.half_open_max_requests = b.half_open_max_requests := by
  unfold call
  cases hoc : openCheck b now with
  | error e => exact ⟨rfl, rfl, rfl⟩
  | ok b1 =>
    have h1 := openCheck_ok_fields b now b1 hoc
    dsimp only
    cases had : halfOpenAdmit b1 with
    | error e => exact ⟨h1.1, h1.2.1, h1.2.2.1⟩
    | ok b2 =>
      have h2 := halfOpenAdmit_ok_fields b1 b2 had
      dsimp only
      cases op with
      | ok v =>
        refine ⟨?_, ?_, ?_⟩
        · show (reset b2).max_failures = b.max_failures
          rw [(reset_fields b2).1, h2.1, h1.1]
        · show (reset b2).reset_timeout = b.reset_timeout
          rw [(reset_fields b2).2.1, h2.2.1, h1.2.1]
        · show (reset b2).half_open_max_requests = b.half_open_max_requests
          rw [(reset_fields b2).2.2.1, h2.2.2.1, h1.2.2.1]
      | error e =>
        refine ⟨?_, ?_, ?_⟩
        · show (record_failure b2 now).max_failures = b.max_failures
          rw [(record_failure_fields b2 now).1, h2.1, h1.1]
        · show (record_failure b2 now).reset_timeout = b.reset_timeout
          rw [(record_failure_fields b2 now).2.1, h2.2.1, h1.2.1]
        · show (record_failure b2 now).half_open_max_requests = b.half_open_max_requests
          rw [(record_failure_fields b2 now).2.2.1, h2.2.2.1, h1.2.2.1]

/-! ### Claim theorems: the call method -/

/-- C4: a call made while OPEN before `reset_timeout` has elapsed raises
the blocked-call error, does not invoke the wrapped operation, and leaves
every field of the instance unchanged. -/
theorem C4_open_blocked {A : Type} (b : Breaker) (now t : Int) (op : Except Exc A)
    (hs : b.state = "OPEN") (ht : b.last_failure_time = some t)
    (hlt : now - t < b.reset_timeout) :
    (call b now op).result = Except.error openBlockedError ∧
    (call b now op).invoked = false ∧
    (call b now op).breaker = b := by
  have hoc : openCheck b now = Except.error openBlockedError := by
    unfold openCheck
    rw [if_pos hs, ht]
    dsimp only
    rw [if_neg (not_le.mpr hlt)]
  unfold call
  rw [hoc]
  exact ⟨rfl, rfl, rfl⟩

/-- Witness for C4: bOpen blocked at time 6, two seconds after its last
failure. -/
theorem C4_open_blocked_witness :
    (call bOpen 6 (Except.ok "x")).result = Except.error openBlockedError ∧
    (call bOpen 6 (Except.ok "x")).invoked = false ∧
    (call bOpen 6 (Except.ok "x")).breaker = bOpen :=
  C4_open_blocked bOpen 6 4 (Except.ok "x") rfl rfl (by decide)

/-- C5: a call made while OPEN once `reset_timeout` has elapsed moves the
instance to HALF-OPEN with the trial counter reset to 0, and — the freshly
reset counter passing the admission check, which increments it to 1 —
attempts the wrapped operation within the same invocation. -/
theorem C5_open_elapsed_halfopen {A : Type} (b : Breaker) (now t : Int) (op : Except Exc A)
    (hs : b.state = "OPEN") (ht : b.last_failure_time = some t)
    (hge : now - t ≥ b.reset_timeout) (hpos : 0 < b.half_open_max_requests) :
    openCheck b now = Except.ok { b with state := "HALF-OPEN", half_open_request_count := 0 } ∧
    call b now op = runOp { b with state := "HALF-OPEN", half_open_request_count := 1 } now op ∧
    (call b now op).invoked = true := by
  have hoc : openCheck b now =
      Except.ok { b with state := "HALF-OPEN", half_open_request_count := 0 } := by
    unfold openCheck
    rw [if_pos hs, ht]
    dsimp only
    rw [if_pos hge]
  have had : halfOpenAdmit { b with state := "HALF-OPEN", half_open_request_count := 0 } =
      Except.ok { b with state := "HALF-OPEN", half_open_request_count := 1 } := by
    unfold halfOpenAdmit
    rw [if_pos rfl, if_neg (not_le.mpr hpos)]
    norm_num
  have hcall : call b now op =
      runOp { b with state := "HALF-OPEN", half_open_request_count := 1 } now op := by
    unfold call
    rw [hoc]
    dsimp only
    rw [had]
  refine ⟨hoc, hcall, ?_⟩
  rw [hcall]
  cases op <;> rfl

/-- Witness for C5: bOpen at time 9, five seconds after its last failure. -/
theorem C5_open_elapsed_halfopen_witness :
    openCheck bOpen 9 =
      Except.ok { bOpen with state := "HALF-OPEN", half_open_request_count := 0 } ∧
    call bOpen 9 (Except.ok "x") =
      runOp { bOpen with state := "HALF-OPEN", half_open_request_count := 1 } 9
        (Except.ok "x") ∧
    (call bOpen 9 (Except.ok "x")).invoked = true :=
  C5_open_elapsed_halfopen bOpen 9 4 (Except.ok "x") rfl rfl (by decide) (by decide)

/-- C6: whenever the wrapped operation is actually invoked and succeeds —
whatever state admitted the call — the instance is reset (`failure_count`
0, state CLOSED, trial counter 0) and the result is returned unchanged. -/
theorem C6_success_resets {A : Type} (b : Breaker) (now : Int) (v : A)
    (h : (call b now (Except.ok v)).invoked = true) :
    (call b now (Except.ok v)).result = Except.ok v ∧
    (call b now (Except.ok v)).breaker.failure_count = 0 ∧
    (call b now (Except.ok v)).breaker.state = "CLOSED" ∧
    (call b now (Except.ok v)).breaker.half_open_request_count = 0 := by
  obtain ⟨b2, hc, _⟩ := call_invoked_spec b now (Except.ok v) h
  rw [hc]
  exact ⟨rfl, rfl, rfl, rfl⟩

/-- Witness for C6: a successful call on a fresh CLOSED instance. -/
theorem C6_success_resets_witness :
    (call (initBreaker 3 3 2) 0 (Except.ok "Service succeeded!")).result =
      Except.ok "Service succeeded!" ∧
    (call (initBreaker 3 3 2) 0 (Except.ok "Service succeeded!")).breaker.failure_count = 0 ∧
    (call (initBreaker 3 3 2) 0 (Except.ok "Service succeeded!")).breaker.state = "CLOSED" ∧
    (call (initBreaker 3 3 2) 0
      (Except.ok "Service succeeded!")).breaker.half_open_request_count = 0 :=
  C6_success_resets (initBreaker 3 3 2) 0 "Service succeeded!" rfl

/-- C2 (amended): when an admitted operation fails, the failure is
recorded (`failure_count` incremented, `last_failure_time` stamped) and
the original exception is re-raised to the caller unchanged — the `raise`
statement propagates `e` itself, with no `OperationFailedError` wrapper. -/
theorem C2_failure_recorded_and_reraised {A : Type} (b : Breaker) (now : Int) (e : Exc)
    (h : (call b now (Except.error e : Except Exc A)).invoked = true) :
    (call b now (Except.error e : Except Exc A)).result = Except.error e ∧
    (call b now (Except.error e : Except Exc A)).breaker.failure_count =
      b.failure_count + 1 ∧
    (call b now (Except.error e : Except Exc A)).breaker.last_failure_time = some now := by
  obtain ⟨b2, hc, hfc⟩ := call_invoked_spec b now (Except.error e) h
  rw [hc]
  refine ⟨rfl, ?_, ?_⟩
  · show (record_failure b2 now).failure_count = b.failure_count + 1
    rw [(record_failure_fields b2 now).2.2.2.1, hfc]
  · exact (record_failure_fields b2 now).2.2.2.2.1

/-- Witness for C2 (amended): a failing call on a fresh CLOSED instance. -/
theorem C2_failure_recorded_and_reraised_witness :
    (call (initBreaker 3 3 2) 0
      (Except.error (Exc.valueError "Service failed!") : Except Exc String)).result =
      Except.error (Exc.valueError "Service failed!") ∧
    (call (initBreaker 3 3 2) 0
      (Except.error (Exc.valueError "Service failed!") : Except Exc String)).breaker.failure_count =
      (initBreaker 3 3 2).failure_count + 1 ∧
    (call (initBreaker 3 3 2) 0
      (Except.error (Exc.valueError "Service failed!") : Except Exc String)).breaker.last_failure_time =
      some 0 :=
  C2_failure_recorded_and_reraised (initBreaker 3 3 2) 0 (Exc.valueError "Service failed!") rfl

/-- C2 counterexample: the error surfaced by an attempted-and-failed call
can be byte-for-byte identical to the error of a blocked call, so the two
outcomes are not distinguishable for every exception the operation may
raise, and no wrapper is applied. `bOpen` at time 6 blocks without
invoking; a CLOSED instance whose operation raises the very same
`RuntimeError` invokes it and surfaces an equal error. -/
theorem C2_counterexample :
    (call bOpen 6 (Except.ok "x")).invoked = false ∧
    (call (initBreaker 3 3 2) 0
      (Except.error openBlockedError : Except Exc String)).invoked = true ∧
    (call bOpen 6 (Except.ok "x")).result =
      (call (initBreaker 3 3 2) 0
        (Except.error openBlockedError : Except Exc String)).result := by
  refine ⟨rfl, rfl, ?_⟩
  rfl

/-! ### Reachability invariants -/

theorem Reachable_config (mf rt ho : Int) (b : Breaker) (h : Reachable mf rt ho b) :
    b.max_failures = mf ∧ b.reset_timeout = rt ∧ b.half_open_max_requests = ho := by
  induction h with
  | init => exact ⟨rfl, rfl, rfl⟩
  | step b now op hb ih =>
    have hc := call_config b now op
    exact ⟨hc.1.trans ih.1, hc.2.1.trans ih.2.1, hc.2.2.trans ih.2.2⟩

theorem call_halfOpen_inv {A : Type} (b : Breaker) (now : Int) (op : Except Exc A)
    (hpos : 0 < b.half_open_max_requests)
    (hb : b.state = "HALF-OPEN" → b.half_open_request_count ≤ b.half_open_max_requests) :
    (call b now op).breaker.state = "HALF-OPEN" →
    (call b now op).breaker.half_open_request_count ≤
      (call b now op).breaker.half_open_max_requests := by
  unfold call
  cases hoc : openCheck b now with
  | error e => exact hb
  | ok b1 =>
    dsimp only
    cases had : halfOpenAdmit b1 with
    | error e =>
      dsimp only
      intro hs1
      rcases openCheck_ok_cases b now b1 hoc with h | ⟨hso, h⟩
      · subst h; exact hb hs1
      · subst h
        exact le_of_lt hpos
    | ok b2 =>
      dsimp only
      intro hs2
      exact absurd hs2 (runOp_state_not_halfOpen b2 now op)

theorem halfOpen_saturated_blocked {A : Type} (b : Breaker) (now : Int) (op : Except Exc A)
    (hs : b.state = "HALF-OPEN")
    (hge : b.half_open_request_count ≥ b.half_open_max_requests) :
    (call b now op).result = Except.error halfOpenBlockedError ∧
    (call b now op).invoked = false ∧
    (call b now op).breaker = b := by
  have hoc : openCheck b now = Except.ok b := by
    unfold openCheck
    rw [if_neg (by simp [hs])]
  have had : halfOpenAdmit b = Except.error halfOpenBlockedError := by
    unfold halfOpenAdmit
    rw [if_pos hs, if_pos hge]
  unfold call
  rw [hoc]
  dsimp only
  rw [had]
  exact ⟨rfl, rfl, rfl⟩

/-- C7: from a freshly constructed breaker with a positive trial cap, the
trial counter never exceeds the cap while the state is HALF-OPEN; at the
admission check, a call past the cap raises the half-open blocked error
without invoking the operation and without changing the instance; and any
breaker the admission phase actually admits still satisfies the cap. -/
theorem C7_halfOpen_cap (mf rt ho : Int) (hpos : 0 < ho) (b : Breaker)
    (h : Reachable mf rt ho b) :
    (b.state = "HALF-OPEN" → b.half_open_request_count ≤ b.half_open_max_requests) ∧
    (∀ (A : Type) (now : Int) (op : Except Exc A),
      b.state = "HALF-OPEN" → b.half_open_request_count ≥ b.half_open_max_requests →
      (call b now op).result = Except.error halfOpenBlockedError ∧
      (call b now op).invoked = false ∧ (call b now op).breaker = b) ∧
    (∀ (now : Int) (b1 b2 : Breaker),
      openCheck b now = Except.ok b1 → halfOpenAdmit b1 = Except.ok b2 →
      b2.state = "HALF-OPEN" →
      b2.half_open_request_count ≤ b2.half_open_max_requests) := by
  refine ⟨?_, ?_, ?_⟩
  · induction h with
    | init =>
      intro hs
      simp [initBreaker] at hs
    | step b now op hb ih =>
      have hcfg := Reachable_config mf rt ho b hb
      exact call_halfOpen_inv b now op (by rw [hcfg.2.2]; exact hpos) ih
  · intro A now op hs hge
    exact halfOpen_saturated_blocked b now op hs hge
  · intro now b1 b2 hoc had hs2
    rcases halfOpenAdmit_ok_cases b1 b2 had with ⟨hns, hb2⟩ | ⟨hs1, hlt, hb2⟩
    · subst hb2; exact absurd hs2 hns
    · subst hb2
      show b1.half_open_request_count + 1 ≤ b1.half_open_max_requests
      omega

/-- Witness for C7 at the freshly constructed demo configuration. -/
theorem C7_halfOpen_cap_witness :
    (0:Int) < 2 ∧
    (((initBreaker 3 3 2).state = "HALF-OPEN" →
        (initBreaker 3 3 2).half_open_request_count ≤
          (initBreaker 3 3 2).half_open_max_requests) ∧
      (∀ (A : Type) (now : Int) (op : Except Exc A),
        (initBreaker 3 3 2).state = "HALF-OPEN" →
        (initBreaker 3 3 2).half_open_request_count ≥
          (initBreaker 3 3 2).half_open_max_requests →
        (call (initBreaker 3 3 2) now op).result = Except.error halfOpenBlockedError ∧
        (call (initBreaker 3 3 2) now op).invoked = false ∧
        (call (initBreaker 3 3 2) now op).breaker = initBreaker 3 3 2) ∧
      (∀ (now : Int) (b1 b2 : Breaker),
        openCheck (initBreaker 3 3 2) now = Except.ok b1 →
        halfOpenAdmit b1 = Except.ok b2 →
        b2.state = "HALF-OPEN" →
        b2.half_open_request_count ≤ b2.half_open_max_requests)) :=
  ⟨by decide, C7_halfOpen_cap 3 3 2 (by decide) (initBreaker 3 3 2) Reachable.init⟩

theorem call_open_time_inv {A : Type} (b : Breaker) (now : Int) (op : Except Exc A)
    (hb : b.state = "OPEN" → b.last_failure_time ≠ none) :
    (call b now op).breaker.state = "OPEN" →
    (call b now op).breaker.last_failure_time ≠ none := by
  unfold call
  cases hoc : openCheck b now with
  | error e => exact hb
  | ok b1 =>
    dsimp only
    cases had : halfOpenAdmit b1 with
    | error e =>
      dsimp only
      intro hs1
      rcases openCheck_ok_cases b now b1 hoc with h | ⟨hso, h⟩
      · subst h; exact hb hs1
      · subst h
        simp at hs1
    | ok b2 =>
      dsimp only
      cases op with
      | ok v =>
        intro hs
        simp [runOp, reset] at hs
      | error e =>
        intro _
        show (record_failure b2 now).last_failure_time ≠ none
        rw [(record_failure_fields b2 now).2.2.2.2.1]
        simp

/-- C10: in every state reachable by sequences of calls from a freshly
constructed breaker, state OPEN implies `last_failure_time` is set, so
the elapsed-time computation of the OPEN branch never subtracts the
initial `None` — `openCheck` can never produce the modelled Python
`TypeError`. -/
theorem C10_open_implies_timestamp (mf rt ho : Int) (b : Breaker)
    (h : Reachable mf rt ho b) :
    (b.state = "OPEN" → b.last_failure_time ≠ none) ∧
    (∀ now : Int, openCheck b now ≠ Except.error noneSubError) := by
  have hinv : b.state = "OPEN" → b.last_failure_time ≠ none := by
    induction h with
    | init =>
      intro hs
      simp [initBreaker] at hs
    | step b now op hb ih => exact call_open_time_inv b now op ih
  refine ⟨hinv, ?_⟩
  intro now hcontra
  unfold openCheck at hcontra
  by_cases hs : b.state = "OPEN"
  · rw [if_pos hs] at hcontra
    cases hlt : b.last_failure_time with
    | none => exact hinv hs hlt
    | some t =>
      rw [hlt] at hcontra
      dsimp only at hcontra
      by_cases hge : now - t ≥ b.reset_timeout
      · rw [if_pos hge] at hcontra; cases hcontra
      · rw [if_neg hge] at hcontra
        simp [openBlockedError, noneSubError, openBlockedMsg] at hcontra
  · rw [if_neg hs] at hcontra
    cases hcontra

/-- The breaker obtained from one failing call on a breaker constructed
with `max_failures = 1`: it has tripped to OPEN. -/
def bTripped : Breaker :=
  (call (initBreaker 1 1 1) 0
    (Except.error (Exc.valueError "Service failed!") : Except Exc String)).breaker

/-- Witness for C10 at a concrete reachable OPEN state. -/
theorem C10_open_implies_timestamp_witness :
    bTripped.last_failure_time ≠ none ∧ openCheck bTripped 5 ≠ Except.error noneSubError :=
  ⟨(C10_open_implies_timestamp 1 1 1 bTripped
      (Reachable.step (initBreaker 1 1 1) 0
        (Except.error (Exc.valueError "Service failed!") : Except Exc String)
        Reachable.init)).1 rfl,
    (C10_open_implies_timestamp 1 1 1 bTripped
      (Reachable.step (initBreaker 1 1 1) 0
        (Except.error (Exc.valueError "Service failed!") : Except Exc String)
        Reachable.init)).2 5⟩

/-! ### Interleaved execution of the HALF-OPEN admission section

In the source, the admission check `if self.half_open_request_count >=
self.half_open_max_requests` (line 51) and the increment
`self.half_open_request_count += 1` (line 54) are executed outside the
`with self._lock` block, so a thread may be preempted between them. The
following small-step semantics models several threads each running that
section once against the shared counter: each thread is at the check, at
the increment, or finished (admitted or blocked), and any thread at the
check or at the increment may take the next step. -/

/-- Position of one thread inside lines 50-54 of `call`. -/
inductive TPc where
  | check
  | inc
  | admitted
  | blocked
deriving DecidableEq, Repr

/-- Shared counter, its cap, and the position of each thread. -/
structure AdmState where
  half_open_request_count : Int
  half_open_max_requests : Int
  pcs : List TPc
deriving DecidableEq, Repr

/-- One interleaving step: some thread at the check compares the shared
counter with the cap and moves to the increment or to blocked; some
thread at the increment bumps the shared counter and is admitted. -/
inductive AdmStep : AdmState → AdmState → Prop where
  | checkPass (s : AdmState) (i : Nat) (h : s.pcs.get? i = some TPc.check)
      (hlt : ¬ s.half_open_request_count ≥ s.half_open_max_requests) :
      AdmStep s { s with pcs := s.pcs.set i TPc.inc }
  | checkFail (s : AdmState) (i : Nat) (h : s.pcs.get? i = some TPc.check)
      (hge : s.half_open_request_count ≥ s.half_open_max_requests) :
      AdmStep s { s with pcs := s.pcs.set i TPc.blocked }
  | doInc (s : AdmState) (i : Nat) (h : s.pcs.get? i = some TPc.inc) :
      AdmStep s
        { s with half_open_request_count := s.half_open_request_count + 1,
                 pcs := s.pcs.set i TPc.admitted }

/-- Reflexive-transitive closure of `AdmStep`. -/
inductive AdmReach : AdmState → AdmState → Prop where
  | refl (s : AdmState) : AdmReach s s
  | tail (s t u : AdmState) : AdmReach s t → AdmStep t u → AdmReach s u

/-- Number of threads whose operation got invoked. -/
def admittedCount (s : AdmState) : Nat := s.pcs.count TPc.admitted

/-- Number of threads rejected at the admission check. -/
def blockedCount (s : AdmState) : Nat := s.pcs.count TPc.blocked

/-- Five threads arriving at the admission section the instant the
breaker enters HALF-OPEN with `half_open_max_requests = 2`. -/
def admInit : AdmState :=
  { half_open_request_count := 0
    half_open_max_requests := 2
    pcs := [TPc.check, TPc.check, TPc.check, TPc.check, TPc.check] }

/-- The final state of the schedule in which threads 0, 1 and 2 all pass
the check before any increment becomes visible. -/
def admFinal : AdmState :=
  { half_open_request_count := 3
    half_open_max_requests := 2
    pcs := [TPc.admitted, TPc.admitted, TPc.admitted, TPc.blocked, TPc.blocked] }

/-- C8: with `halfOpenMaxRequests = 2` and five concurrent calls arriving
the instant the breaker enters HALF-OPEN, the unlocked check/increment
admits an interleaving with three operation invocations and only two
rejections — the claimed check-and-increment atomicity does not hold in
the code. -/
theorem C8_admission_race :
    AdmReach admInit admFinal ∧ admittedCount admFinal = 3 ∧ blockedCount admFinal = 2 := by
  refine ⟨?_, by decide, by decide⟩
  have s1 := AdmReach.tail _ _ _ (AdmReach.refl admInit)
    (AdmStep.checkPass admInit 0 (by decide) (by decide))
  have s2 := AdmReach.tail _ _ _ s1 (AdmStep.checkPass _ 1 (by decide) (by decide))
  have s3 := AdmReach.tail _ _ _ s2 (AdmStep.checkPass _ 2 (by decide) (by decide))
  have s4 := AdmReach.tail _ _ _ s3 (AdmStep.doInc _ 0 (by decide))
  have s5 := AdmReach.tail _ _ _ s4 (AdmStep.doInc _ 1 (by decide))
  have s6 := AdmReach.tail _ _ _ s5 (AdmStep.doInc _ 2 (by decide))
  have s7 := AdmReach.tail _ _ _ s6 (AdmStep.checkFail _ 3 (by decide) (by decide))
  have s8 := AdmReach.tail _ _ _ s7 (AdmStep.checkFail _ 4 (by decide) (by decide))
  exact s8

end CircuitBreakerModel
